import Mathlib

/-!
Verification development for the MUTCD signal-warrant evaluation engine
(`src/app.py` of `signal-warrant-checker`).

The engine's pure core is shallowly embedded here:
* volumes, speeds, populations and thresholds are rationals (`ℚ`), a faithful
  superset of the Python ints/floats actually used (only `+ - * / ≤ <` occur);
* a Python `None`-able value is an `Option`;
* a pandas hourly dataframe is a `List HourlyCount` (row order preserved),
  and a possibly-absent dataframe is an `Option (List HourlyCount)`;
* each evaluator's returned dict becomes a structure holding the
  decision-relevant fields; presentation-only payload (the `details`
  f-strings, `hourly_results`, echoed curve data) is omitted except where a
  property is about which message template fired (Warrant 3), in which case
  the template choice is kept as an inductive value.

`interpolate_threshold` in the source indexes `points[0]` / `points[-1]`
and so raises `IndexError` on an empty curve; the embedding returns `none`
there instead.  All properties below concern non-empty curves, where the
two agree.
-/

namespace SignalWarrant

/-- One row of the hourly traffic table: label plus the two street volumes. -/
structure HourlyCount where
  hour : String
  street1 : ℚ
  street2 : ℚ
deriving DecidableEq, Repr

/-! ### MUTCD 2009 threshold data (src/app.py lines 20-73)

The Python tables are nested dicts keyed by lane-key pairs and percentage
strings; a lookup outside the stored keys raises `KeyError`.  They are
embedded as functions matching on exactly the stored keys, with an
out-of-domain default that no evaluator ever reaches (evaluators only build
keys via `get_lane_key` / `get_threshold_percentage`, which always land in
the stored domain). -/

/-- Warrant 1, Table 4C-1, Condition A: `(major_vph, minor_vph)` minimums. -/
def WARRANT1_THRESHOLDS_condition_a (lane_key : ℕ × ℕ) (pct : String) : ℚ × ℚ :=
  match lane_key, pct with
  | (1, 1), "100" => (500, 150)
  | (1, 1), "80" => (400, 120)
  | (1, 1), "70" => (350, 105)
  | (1, 1), "56" => (280, 84)
  | (2, 1), "100" => (600, 150)
  | (2, 1), "80" => (480, 120)
  | (2, 1), "70" => (420, 105)
  | (2, 1), "56" => (336, 84)
  | (2, 2), "100" => (600, 200)
  | (2, 2), "80" => (480, 160)
  | (2, 2), "70" => (420, 140)
  | (2, 2), "56" => (336, 112)
  | (1, 2), "100" => (500, 200)
  | (1, 2), "80" => (400, 160)
  | (1, 2), "70" => (350, 140)
  | (1, 2), "56" => (280, 112)
  | _, _ => (0, 0)

/-- Warrant 1, Table 4C-1, Condition B: `(major_vph, minor_vph)` minimums. -/
def WARRANT1_THRESHOLDS_condition_b (lane_key : ℕ × ℕ) (pct : String) : ℚ × ℚ :=
  match lane_key, pct with
  | (1, 1), "100" => (750, 75)
  | (1, 1), "80" => (600, 60)
  | (1, 1), "70" => (525, 53)
  | (1, 1), "56" => (420, 42)
  | (2, 1), "100" => (900, 75)
  | (2, 1), "80" => (720, 60)
  | (2, 1), "70" => (630, 53)
  | (2, 1), "56" => (504, 42)
  | (2, 2), "100" => (900, 100)
  | (2, 2), "80" => (720, 80)
  | (2, 2), "70" => (630, 70)
  | (2, 2), "56" => (504, 56)
  | (1, 2), "100" => (750, 100)
  | (1, 2), "80" => (600, 80)
  | (1, 2), "70" => (525, 70)
  | (1, 2), "56" => (420, 56)
  | _, _ => (0, 0)

/-- Warrant 2, Figure 4C-1/4C-2 curve points `(major_vph, minor_vph threshold)`. -/
def WARRANT2_CURVES (pct : String) (lane_key : ℕ × ℕ) : List (ℚ × ℚ) :=
  match pct, lane_key with
  | "100", (1, 1) =>
      [(300, 115), (400, 100), (500, 90), (600, 80), (700, 70), (800, 60), (900, 50), (1000, 40)]
  | "100", (2, 1) =>
      [(400, 115), (500, 100), (600, 90), (700, 80), (800, 70), (900, 60), (1000, 50), (1100, 40)]
  | "100", (2, 2) =>
      [(400, 150), (500, 135), (600, 120), (700, 105), (800, 95), (900, 85), (1000, 75), (1100, 65)]
  | "100", (1, 2) =>
      [(300, 150), (400, 135), (500, 120), (600, 105), (700, 95), (800, 85), (900, 75), (1000, 65)]
  | "70", (1, 1) =>
      [(210, 80), (280, 70), (350, 63), (420, 56), (490, 49), (560, 42), (630, 35), (700, 28)]
  | "70", (2, 1) =>
      [(280, 80), (350, 70), (420, 63), (490, 56), (560, 49), (630, 42), (700, 35), (770, 28)]
  | "70", (2, 2) =>
      [(280, 105), (350, 95), (420, 84), (490, 74), (560, 67), (630, 60), (700, 53), (770, 46)]
  | "70", (1, 2) =>
      [(210, 105), (280, 95), (350, 84), (420, 74), (490, 67), (560, 60), (630, 53), (700, 46)]
  | _, _ => []

/-- Warrant 3, Figure 4C-3/4C-4 curve points. -/
def WARRANT3_CURVES (pct : String) (lane_key : ℕ × ℕ) : List (ℚ × ℚ) :=
  match pct, lane_key with
  | "100", (1, 1) =>
      [(400, 150), (500, 135), (600, 120), (700, 105), (800, 100), (900, 100), (1000, 100)]
  | "100", (2, 1) =>
      [(500, 150), (600, 135), (700, 120), (800, 105), (900, 100), (1000, 100), (1100, 100)]
  | "100", (2, 2) =>
      [(500, 200), (600, 180), (700, 160), (800, 150), (900, 150), (1000, 150), (1100, 150)]
  | "100", (1, 2) =>
      [(400, 200), (500, 180), (600, 160), (700, 150), (800, 150), (900, 150), (1000, 150)]
  | "70", (1, 1) =>
      [(280, 105), (350, 95), (420, 84), (490, 74), (560, 70), (630, 70), (700, 70)]
  | "70", (2, 1) =>
      [(350, 105), (420, 95), (490, 84), (560, 74), (630, 70), (700, 70), (770, 70)]
  | "70", (2, 2) =>
      [(350, 140), (420, 126), (490, 112), (560, 105), (630, 105), (700, 105), (770, 105)]
  | "70", (1, 2) =>
      [(280, 140), (350, 126), (420, 112), (490, 105), (560, 105), (630, 105), (700, 105)]
  | _, _ => []

/-- Warrant 4, Figure 4C-5 through 4C-8 curve points, keyed by the string
the Python code builds as `f"four_hour_{pct}"` / `f"peak_hour_{pct}"`. -/
def WARRANT4_CURVES (key : String) : List (ℚ × ℚ) :=
  match key with
  | "four_hour_100" =>
      [(300, 190), (400, 150), (500, 130), (600, 115), (700, 107), (800, 100), (900, 100), (1000, 100)]
  | "four_hour_70" =>
      [(210, 133), (280, 105), (350, 91), (420, 81), (490, 75), (560, 70), (630, 70), (700, 70)]
  | "peak_hour_100" =>
      [(300, 380), (400, 300), (500, 260), (600, 230), (700, 214), (800, 200), (900, 200), (1000, 200)]
  | "peak_hour_70" =>
      [(210, 266), (280, 210), (350, 182), (420, 161), (490, 150), (560, 140), (630, 140), (700, 140)]
  | _ => []

/-- `get_lane_key`: collapse actual lane counts to the table keys `1` / `2`. -/
def get_lane_key (major_lanes minor_lanes : ℕ) : ℕ × ℕ :=
  ((if major_lanes = 1 then 1 else 2), (if minor_lanes = 1 then 1 else 2))

/-- `get_threshold_percentage`: pick the percentage column from site conditions. -/
def get_threshold_percentage (speed population : ℚ) (is_combination : Bool) : String :=
  let has_reduction := 40 < speed ∨ population < 10000
  if is_combination then (if has_reduction then "56" else "80")
  else (if has_reduction then "70" else "100")

/-! ### Curve interpolation (src/app.py lines 92-108) -/

/-- Key order used by `sorted(curve_points, key=lambda x: x[0])`. -/
def keyLE (p q : ℚ × ℚ) : Prop := p.1 ≤ q.1

instance : DecidableRel keyLE := fun p q => inferInstanceAs (Decidable (p.1 ≤ q.1))

instance : IsTotal (ℚ × ℚ) keyLE := ⟨fun p q => le_total p.1 q.1⟩

instance : IsTrans (ℚ × ℚ) keyLE := ⟨fun _ _ _ hpq hqr => le_trans hpq hqr⟩

/-- `points = sorted(curve_points, key=lambda x: x[0])` (stable, ascending by x). -/
def sortPoints (curve_points : List (ℚ × ℚ)) : List (ℚ × ℚ) :=
  curve_points.insertionSort keyLE

/-- The loop body's interpolated value:
`slope = (y2 - y1) / (x2 - x1); y1 + slope * (major_vol - x1)`. -/
def segValue (p q : ℚ × ℚ) (v : ℚ) : ℚ :=
  p.2 + (q.2 - p.2) / (q.1 - p.1) * (v - p.1)

/-- The `for i in range(len(points) - 1)` scan: the first adjacent pair
`(points[i], points[i+1])` with `x1 <= major_vol < x2`, if any. -/
def findSegment : List (ℚ × ℚ) → ℚ → Option ((ℚ × ℚ) × (ℚ × ℚ))
  | p :: q :: rest, v =>
      if p.1 ≤ v ∧ v < q.1 then some (p, q) else findSegment (q :: rest) v
  | _, _ => none

/-- Body of `interpolate_threshold` after the sort, on the sorted point list. -/
def interpCore : List (ℚ × ℚ) → ℚ → Option ℚ
  | [], _ => none
  | p0 :: rest, major_vol =>
      if major_vol < p0.1 then none
      else if ((p0 :: rest).getLast (List.cons_ne_nil p0 rest)).1 ≤ major_vol then
        some ((p0 :: rest).getLast (List.cons_ne_nil p0 rest)).2
      else
        match findSegment (p0 :: rest) major_vol with
        | some (p, q) => some (segValue p q major_vol)
        | none => some ((p0 :: rest).getLast (List.cons_ne_nil p0 rest)).2

/-- `interpolate_threshold(curve_points, major_vol)`: sort the points, return
`None` below the first breakpoint, the last y at or above the last breakpoint,
and otherwise linearly interpolate on the bracketing segment. -/
def interpolate_threshold (curve_points : List (ℚ × ℚ)) (major_vol : ℚ) : Option ℚ :=
  interpCore (sortPoints curve_points) major_vol

/-! ### Street role resolution (the repeated major/minor assignment block) -/

/-- `traffic_df['Street 1 (vph)'].sum()`. -/
def street1Total (tdf : List HourlyCount) : ℚ :=
  (tdf.map (·.street1)).sum

/-- `traffic_df['Street 2 (vph)'].sum()`. -/
def street2Total (tdf : List HourlyCount) : ℚ :=
  (tdf.map (·.street2)).sum

/-- A row's major-street volume: street 1 when
`street1_total >= street2_total`, street 2 otherwise. -/
def resolveMajor (tdf : List HourlyCount) (row : HourlyCount) : ℚ :=
  if street2Total tdf ≤ street1Total tdf then row.street1 else row.street2

/-- A row's minor-street volume (the other street of `resolveMajor`). -/
def resolveMinor (tdf : List HourlyCount) (row : HourlyCount) : ℚ :=
  if street2Total tdf ≤ street1Total tdf then row.street2 else row.street1

/-- Number of hours whose major and minor volumes both reach a
`(major, minor)` threshold pair (the Warrant 1 per-hour test
`major_vol >= thresh[0] and minor_vol >= thresh[1]`). -/
def hoursMeeting (tdf : List HourlyCount) (thresh : ℚ × ℚ) : ℕ :=
  tdf.countP fun row =>
    decide (thresh.1 ≤ resolveMajor tdf row ∧ thresh.2 ≤ resolveMinor tdf row)

/-! ### Warrant 1 — Eight-Hour Vehicular Volume (src/app.py lines 111-182) -/

/-- Decision-relevant fields of the Warrant 1 result dict. -/
structure W1Result where
  met : Option Bool
  condition : Option String
  hours_met : ℕ
deriving DecidableEq, Repr

def evaluate_warrant1 (traffic_df : Option (List HourlyCount))
    (major_lanes minor_lanes : ℕ) (speed population : ℚ) : W1Result :=
  match traffic_df with
  | none => ⟨none, none, 0⟩
  | some tdf =>
    if tdf.length < 8 then ⟨none, none, 0⟩
    else
      let lane_key := get_lane_key major_lanes minor_lanes
      let pct := get_threshold_percentage speed population false
      let pct_combo := get_threshold_percentage speed population true
      let thresh_a := WARRANT1_THRESHOLDS_condition_a lane_key pct
      let thresh_b := WARRANT1_THRESHOLDS_condition_b lane_key pct
      let thresh_a_combo := WARRANT1_THRESHOLDS_condition_a lane_key pct_combo
      let thresh_b_combo := WARRANT1_THRESHOLDS_condition_b lane_key pct_combo
      let hours_a := hoursMeeting tdf thresh_a
      let hours_b := hoursMeeting tdf thresh_b
      let hours_a_combo := hoursMeeting tdf thresh_a_combo
      let hours_b_combo := hoursMeeting tdf thresh_b_combo
      if 8 ≤ hours_a then ⟨some true, some "A", hours_a⟩
      else if 8 ≤ hours_b then ⟨some true, some "B", hours_b⟩
      else if 8 ≤ hours_a_combo ∧ 8 ≤ hours_b_combo then
        ⟨some true, some "A+B", min hours_a_combo hours_b_combo⟩
      else ⟨some false, none, max hours_a hours_b⟩

/-! ### Warrant 2 — Four-Hour Vehicular Volume (src/app.py lines 185-233) -/

/-- Decision-relevant fields of the Warrant 2 result dict. -/
structure W2Result where
  met : Option Bool
  hours_met : ℕ
deriving DecidableEq, Repr

/-- The repeated Python test `threshold is not None and value >= threshold`. -/
def thresholdMet (threshold : Option ℚ) (value : ℚ) : Bool :=
  match threshold with
  | none => false
  | some t => decide (t ≤ value)

/-- Per-hour Warrant 2 test:
`threshold is not None and minor_vol >= threshold`. -/
def w2HourAbove (tdf : List HourlyCount) (curve : List (ℚ × ℚ)) (row : HourlyCount) : Bool :=
  thresholdMet (interpolate_threshold curve (resolveMajor tdf row)) (resolveMinor tdf row)

def evaluate_warrant2 (traffic_df : Option (List HourlyCount))
    (major_lanes minor_lanes : ℕ) (speed population : ℚ) : W2Result :=
  match traffic_df with
  | none => ⟨none, 0⟩
  | some tdf =>
    if tdf.length < 4 then ⟨none, 0⟩
    else
      let lane_key := get_lane_key major_lanes minor_lanes
      let pct := if 40 < speed ∨ population < 10000 then "70" else "100"
      let curve_points := WARRANT2_CURVES pct lane_key
      let hours_above := tdf.countP (w2HourAbove tdf curve_points)
      ⟨some (decide (4 ≤ hours_above)), hours_above⟩

/-! ### Warrant 3 — Peak Hour (src/app.py lines 236-281) -/

/-- Which `details` template Warrant 3 produced.  The Python conditional
expression is `<numeric f-string> if threshold else "NOT MET: Major volume
below curve range"`, where `threshold` is falsy when it is `None` (or the
threshold value `0`, which no stored curve contains). -/
inductive W3Detail where
  | insufficientData
  | numericResult (met : Bool)
  | belowCurveRange
deriving DecidableEq, Repr

/-- Python truthiness of the optional threshold value. -/
def pyTruthy : Option ℚ → Bool
  | none => false
  | some q => decide (q ≠ 0)

/-- `traffic_df['total'].idxmax()` then `.loc`: the first row attaining the
maximum of `f`, scanning with a running best. -/
def idxmaxFirst (f : HourlyCount → ℚ) : HourlyCount → List HourlyCount → HourlyCount
  | best, [] => best
  | best, row :: rest =>
      if f best < f row then idxmaxFirst f row rest else idxmaxFirst f best rest

/-- Decision-relevant fields of the Warrant 3 result dict. -/
structure W3Result where
  met : Option Bool
  peak_hour : Option String
  peak_major : Option ℚ
  peak_minor : Option ℚ
  threshold : Option ℚ
  details : W3Detail
deriving DecidableEq, Repr

def evaluate_warrant3 (traffic_df : Option (List HourlyCount))
    (major_lanes minor_lanes : ℕ) (speed population : ℚ) : W3Result :=
  match traffic_df with
  | none => ⟨none, none, none, none, none, .insufficientData⟩
  | some [] => ⟨none, none, none, none, none, .insufficientData⟩
  | some (hd :: tl) =>
      let tdf := hd :: tl
      let lane_key := get_lane_key major_lanes minor_lanes
      let pct := if 40 < speed ∨ population < 10000 then "70" else "100"
      let curve_points := WARRANT3_CURVES pct lane_key
      let peak_row := idxmaxFirst (fun r => resolveMajor tdf r + resolveMinor tdf r) hd tl
      let peak_major := resolveMajor tdf peak_row
      let peak_minor := resolveMinor tdf peak_row
      let threshold := interpolate_threshold curve_points peak_major
      let above_curve := thresholdMet threshold peak_minor
      ⟨some above_curve, some peak_row.hour, some peak_major, some peak_minor, threshold,
        if pyTruthy threshold then .numericResult above_curve else .belowCurveRange⟩

/-! ### Warrant 4 — Pedestrian Volume (src/app.py lines 284-359) -/

/-- `traffic_df.nlargest(4, major_col)[major_col].mean()`: mean of the up to
four largest values. -/
def top4mean (vals : List ℚ) : ℚ :=
  let top := (vals.insertionSort (fun a b => b ≤ a)).take 4
  top.sum / (top.length : ℚ)

/-- Decision-relevant fields of the Warrant 4 result dict (`pct` is absent
from the dicts returned by the three early-exit branches). -/
structure W4Result where
  met : Option Bool
  criterion : Option String
  four_hour_met : Bool
  peak_hour_met : Bool
  pct : Option String
deriving DecidableEq, Repr

def evaluate_warrant4 (traffic_df : Option (List HourlyCount))
    (speed population ped_peak ped_4hr gaps_per_hour dist_to_signal : ℚ) : W4Result :=
  if dist_to_signal < 300 then ⟨some false, none, false, false, none⟩
  else if ¬gaps_per_hour < 60 then ⟨some false, none, false, false, none⟩
  else
    let pct := if 35 < speed ∨ population < 10000 then "70" else "100"
    let four_hour_curve := WARRANT4_CURVES ("four_hour_" ++ pct)
    let peak_hour_curve := WARRANT4_CURVES ("peak_hour_" ++ pct)
    match traffic_df with
    | none => ⟨none, none, false, false, none⟩
    | some [] => ⟨none, none, false, false, none⟩
    | some (hd :: tl) =>
        let tdf := hd :: tl
        let top_4_major := top4mean (tdf.map (resolveMajor tdf))
        let four_hr_threshold := interpolate_threshold four_hour_curve top_4_major
        let four_hour_met := thresholdMet four_hr_threshold ped_4hr
        let peak_major := (tl.map (resolveMajor tdf)).foldl max (resolveMajor tdf hd)
        let peak_hr_threshold := interpolate_threshold peak_hour_curve peak_major
        let peak_hour_met := thresholdMet peak_hr_threshold ped_peak
        let met := four_hour_met || peak_hour_met
        let criterion :=
          if met then (if four_hour_met then some "Four-Hour" else some "Peak Hour") else none
        ⟨some met, criterion, four_hour_met, peak_hour_met, some pct⟩

/-! ### Warrant 7 — Crash Experience (src/app.py lines 442-586) -/

/-- Decision-relevant fields of the Warrant 7 result dict. -/
structure W7Result where
  met : Option Bool
  condition_a : Bool
  condition_b : Bool
  condition_c : Bool
  correctable_crashes : ℕ
  hours_meeting_volume : ℕ
deriving DecidableEq, Repr

/-- Warrant 7 per-hour volume test: the 80% Warrant 1 Condition A pair, or
the 80% Condition B pair, or the Warrant 3 curve at the general
speed/population tier. -/
def w7RowMeets (tdf : List HourlyCount) (major_lanes minor_lanes : ℕ)
    (speed population : ℚ) (row : HourlyCount) : Bool :=
  let lane_key := get_lane_key major_lanes minor_lanes
  let thresh_a_80 := WARRANT1_THRESHOLDS_condition_a lane_key "80"
  let thresh_b_80 := WARRANT1_THRESHOLDS_condition_b lane_key "80"
  let pct := if 40 < speed ∨ population < 10000 then "70" else "100"
  let curve_points := WARRANT3_CURVES pct lane_key
  decide (thresh_a_80.1 ≤ resolveMajor tdf row ∧ thresh_a_80.2 ≤ resolveMinor tdf row) ||
  decide (thresh_b_80.1 ≤ resolveMajor tdf row ∧ thresh_b_80.2 ≤ resolveMinor tdf row) ||
  thresholdMet (interpolate_threshold curve_points (resolveMajor tdf row))
    (resolveMinor tdf row)

def evaluate_warrant7 (traffic_df : Option (List HourlyCount))
    (major_lanes minor_lanes : ℕ) (speed population : ℚ)
    (correctable_crashes : ℕ) (alternatives_tried : Bool) : W7Result :=
  if !alternatives_tried then
    ⟨some false, false, false, false, correctable_crashes, 0⟩
  else if correctable_crashes < 5 then
    ⟨some false, true, false, false, correctable_crashes, 0⟩
  else
    match traffic_df with
    | none => ⟨some false, true, true, false, correctable_crashes, 0⟩
    | some tdf =>
      if tdf.length < 8 then ⟨some false, true, true, false, correctable_crashes, 0⟩
      else
        let hours := tdf.countP (w7RowMeets tdf major_lanes minor_lanes speed population)
        if 8 ≤ hours then ⟨some true, true, true, true, correctable_crashes, hours⟩
        else ⟨some false, true, true, false, correctable_crashes, hours⟩

/-! ### Interpolation lemmas -/

/-- Strict key order: the curve's breakpoints have strictly increasing x. -/
def keyLT (p q : ℚ × ℚ) : Prop := p.1 < q.1

instance : IsTrans (ℚ × ℚ) keyLT := ⟨fun _ _ _ => lt_trans⟩

/-- Non-increasing y along the curve (all stored curves satisfy this). -/
def keyYGE (p q : ℚ × ℚ) : Prop := q.2 ≤ p.2

lemma sortPoints_sorted (l : List (ℚ × ℚ)) : List.Sorted keyLE (sortPoints l) :=
  List.sorted_insertionSort keyLE l

lemma sortPoints_chain (l : List (ℚ × ℚ)) : List.Chain' keyLE (sortPoints l) :=
  (sortPoints_sorted l).chain'

lemma sortPoints_eq_of_sorted {l : List (ℚ × ℚ)} (h : List.Sorted keyLE l) :
    sortPoints l = l :=
  h.insertionSort_eq

lemma chainLE_head_le_getLast :
    ∀ (l : List (ℚ × ℚ)) (a : ℚ × ℚ), List.Chain' keyLE (a :: l) →
      a.1 ≤ ((a :: l).getLast (List.cons_ne_nil a l)).1
  | [], _, _ => le_refl _
  | b :: t, a, h => by
      rw [List.getLast_cons (List.cons_ne_nil b t)]
      exact le_trans (List.chain'_cons.mp h).1
        (chainLE_head_le_getLast t b (List.chain'_cons.mp h).2)

lemma chainLE_head_le_mem :
    ∀ (l : List (ℚ × ℚ)) (a : ℚ × ℚ), List.Chain' keyLE (a :: l) →
      ∀ p ∈ a :: l, a.1 ≤ p.1
  | [], a, _, p, hp => by
      rw [List.mem_singleton.mp hp]
  | b :: t, a, h, p, hp => by
      rcases List.mem_cons.mp hp with h1 | h2
      · rw [h1]
      · exact le_trans (List.chain'_cons.mp h).1
          (chainLE_head_le_mem t b (List.chain'_cons.mp h).2 p h2)

lemma interpCore_single (p : ℚ × ℚ) (v : ℚ) (h : p.1 ≤ v) :
    interpCore [p] v = some p.2 := by
  simp [interpCore, not_lt.mpr h, h]

lemma interpCore_drop (p q : ℚ × ℚ) (rest : List (ℚ × ℚ)) (v : ℚ)
    (hpq : p.1 ≤ q.1) (hv : q.1 ≤ v) :
    interpCore (p :: q :: rest) v = interpCore (q :: rest) v := by
  have hp : ¬v < p.1 := not_lt.mpr (le_trans hpq hv)
  have hq : ¬v < q.1 := not_lt.mpr hv
  have hseg : findSegment (p :: q :: rest) v = findSegment (q :: rest) v := by
    simp only [findSegment]
    rw [if_neg]
    rintro ⟨-, h2⟩
    exact hq h2
  simp only [interpCore, List.getLast_cons (List.cons_ne_nil q rest), hseg,
    if_neg hp, if_neg hq]

lemma interpCore_seg (p q : ℚ × ℚ) (rest : List (ℚ × ℚ)) (v : ℚ)
    (hch : List.Chain' keyLE (q :: rest)) (hpv : p.1 ≤ v) (hvq : v < q.1) :
    interpCore (p :: q :: rest) v = some (segValue p q v) := by
  have hp : ¬v < p.1 := not_lt.mpr hpv
  have hlv : ¬((q :: rest).getLast (List.cons_ne_nil q rest)).1 ≤ v :=
    not_le.mpr (lt_of_lt_of_le hvq (chainLE_head_le_getLast rest q hch))
  have hseg : findSegment (p :: q :: rest) v = some (p, q) := by
    simp only [findSegment]
    rw [if_pos ⟨hpv, hvq⟩]
  simp only [interpCore, List.getLast_cons (List.cons_ne_nil q rest), hseg,
    if_neg hp, if_neg hlv]

lemma findSegment_width :
    ∀ (pts : List (ℚ × ℚ)) (v : ℚ) (p q : ℚ × ℚ),
      findSegment pts v = some (p, q) → p.1 ≤ v ∧ v < q.1 ∧ p.1 < q.1
  | [], _, _, _, h => by simp [findSegment] at h
  | [_], _, _, _, h => by simp [findSegment] at h
  | r :: s :: rest, v, p, q, h => by
      by_cases hc : r.1 ≤ v ∧ v < s.1
      · simp only [findSegment, if_pos hc] at h
        cases h
        exact ⟨hc.1, hc.2, lt_of_le_of_lt hc.1 hc.2⟩
      · simp only [findSegment, if_neg hc] at h
        exact findSegment_width (s :: rest) v p q h

lemma segValue_left (p q : ℚ × ℚ) : segValue p q p.1 = p.2 := by
  simp [segValue]

lemma segValue_le_left (p q : ℚ × ℚ) (v : ℚ) (hw : p.1 < q.1) (hy : q.2 ≤ p.2)
    (hv : p.1 ≤ v) : segValue p q v ≤ p.2 := by
  have hw' : (0 : ℚ) < q.1 - p.1 := by linarith
  have hkey : p.2 - segValue p q v = (p.2 - q.2) * (v - p.1) / (q.1 - p.1) := by
    rw [segValue]
    field_simp
    ring
  have hnn : (0 : ℚ) ≤ (p.2 - q.2) * (v - p.1) / (q.1 - p.1) :=
    div_nonneg (mul_nonneg (by linarith) (by linarith)) hw'.le
  linarith

lemma segValue_ge_right (p q : ℚ × ℚ) (v : ℚ) (hy : q.2 ≤ p.2)
    (hv : p.1 ≤ v) (hvq : v < q.1) : q.2 ≤ segValue p q v := by
  have hw' : (0 : ℚ) < q.1 - p.1 := by linarith
  have hkey : segValue p q v - q.2 = (p.2 - q.2) * (q.1 - v) / (q.1 - p.1) := by
    rw [segValue]
    field_simp
    ring
  have hnn : (0 : ℚ) ≤ (p.2 - q.2) * (q.1 - v) / (q.1 - p.1) :=
    div_nonneg (mul_nonneg (by linarith) (by linarith)) hw'.le
  linarith

lemma segValue_mono (p q : ℚ × ℚ) (a b : ℚ) (hw : p.1 < q.1) (hy : q.2 ≤ p.2)
    (hab : a ≤ b) : segValue p q b ≤ segValue p q a := by
  have hw' : (0 : ℚ) < q.1 - p.1 := by linarith
  have hkey : segValue p q a - segValue p q b = (p.2 - q.2) * (b - a) / (q.1 - p.1) := by
    rw [segValue, segValue]
    field_simp
    ring
  have hnn : (0 : ℚ) ≤ (p.2 - q.2) * (b - a) / (q.1 - p.1) :=
    div_nonneg (mul_nonneg (by linarith) (by linarith)) hw'.le
  linarith

lemma interpCore_le_headY :
    ∀ (rest : List (ℚ × ℚ)) (p0 : ℚ × ℚ) (v t : ℚ),
      List.Chain' keyLE (p0 :: rest) → List.Chain' keyYGE (p0 :: rest) →
      p0.1 ≤ v → interpCore (p0 :: rest) v = some t → t ≤ p0.2
  | [], p0, v, t, _, _, hv, heq => by
      rw [interpCore_single p0 v hv] at heq
      cases heq
      exact le_refl _
  | q :: rest, p0, v, t, hx, hy, hv, heq => by
      obtain ⟨hx1, hx2⟩ := List.chain'_cons.mp hx
      obtain ⟨hy1, hy2⟩ := List.chain'_cons.mp hy
      by_cases hq : q.1 ≤ v
      · rw [interpCore_drop p0 q rest v hx1 hq] at heq
        exact le_trans (interpCore_le_headY rest q v t hx2 hy2 hq heq) hy1
      · push_neg at hq
        rw [interpCore_seg p0 q rest v hx2 hv hq] at heq
        cases heq
        exact segValue_le_left p0 q v (lt_of_le_of_lt hv hq) hy1 hv

lemma interpCore_isSome :
    ∀ (rest : List (ℚ × ℚ)) (p0 : ℚ × ℚ) (v : ℚ),
      List.Chain' keyLE (p0 :: rest) → p0.1 ≤ v →
      ∃ t, interpCore (p0 :: rest) v = some t
  | [], p0, v, _, hv => ⟨p0.2, interpCore_single p0 v hv⟩
  | q :: rest, p0, v, hx, hv => by
      obtain ⟨hx1, hx2⟩ := List.chain'_cons.mp hx
      by_cases hq : q.1 ≤ v
      · obtain ⟨t, ht⟩ := interpCore_isSome rest q v hx2 hq
        exact ⟨t, by rw [interpCore_drop p0 q rest v hx1 hq]; exact ht⟩
      · push_neg at hq
        exact ⟨segValue p0 q v, interpCore_seg p0 q rest v hx2 hv hq⟩

lemma interpCore_mono :
    ∀ (rest : List (ℚ × ℚ)) (p0 : ℚ × ℚ) (a b ta tb : ℚ),
      List.Chain' keyLE (p0 :: rest) → List.Chain' keyYGE (p0 :: rest) →
      p0.1 ≤ a → a ≤ b →
      interpCore (p0 :: rest) a = some ta → interpCore (p0 :: rest) b = some tb →
      tb ≤ ta
  | [], p0, a, b, ta, tb, _, _, ha, hab, hea, heb => by
      rw [interpCore_single p0 a ha] at hea
      rw [interpCore_single p0 b (le_trans ha hab)] at heb
      cases hea
      cases heb
      exact le_refl _
  | q :: rest, p0, a, b, ta, tb, hx, hy, ha, hab, hea, heb => by
      obtain ⟨hx1, hx2⟩ := List.chain'_cons.mp hx
      obtain ⟨hy1, hy2⟩ := List.chain'_cons.mp hy
      by_cases hqa : q.1 ≤ a
      · rw [interpCore_drop p0 q rest a hx1 hqa] at hea
        rw [interpCore_drop p0 q rest b hx1 (le_trans hqa hab)] at heb
        exact interpCore_mono rest q a b ta tb hx2 hy2 hqa hab hea heb
      · push_neg at hqa
        rw [interpCore_seg p0 q rest a hx2 ha hqa] at hea
        cases hea
        by_cases hqb : q.1 ≤ b
        · rw [interpCore_drop p0 q rest b hx1 hqb] at heb
          exact le_trans (interpCore_le_headY rest q b tb hx2 hy2 hqb heb)
            (segValue_ge_right p0 q a hy1 ha hqa)
        · push_neg at hqb
          rw [interpCore_seg p0 q rest b hx2 (le_trans ha hab) hqb] at heb
          cases heb
          exact segValue_mono p0 q a b (lt_of_le_of_lt ha hqa) hy1 hab

lemma interpCore_mem :
    ∀ (rest : List (ℚ × ℚ)) (p0 : ℚ × ℚ) (x y : ℚ),
      List.Chain' keyLT (p0 :: rest) → (x, y) ∈ p0 :: rest →
      interpCore (p0 :: rest) x = some y
  | [], p0, x, y, _, hmem => by
      have h : (x, y) = p0 := List.mem_singleton.mp hmem
      rw [← h]
      exact interpCore_single (x, y) x (le_refl x)
  | q :: rest, p0, x, y, hch, hmem => by
      obtain ⟨hch1, hch2⟩ := List.chain'_cons.mp hch
      rcases List.mem_cons.mp hmem with h1 | h2
      · rw [← h1] at hch1 ⊢
        rw [interpCore_seg (x, y) q rest x (hch2.imp fun _ _ h => le_of_lt h) (le_refl x) hch1]
        rw [segValue_left]
      · have hqx : q.1 ≤ x :=
          chainLE_head_le_mem rest q (hch2.imp fun _ _ h => le_of_lt h) (x, y) h2
        rw [interpCore_drop p0 q rest x (le_of_lt hch1) hqx]
        exact interpCore_mem rest q x y hch2 h2

instance : DecidableRel keyLT := fun p q => inferInstanceAs (Decidable (p.1 < q.1))

instance : DecidableRel keyYGE := fun p q => inferInstanceAs (Decidable (q.2 ≤ p.2))

/-- Shared helper: a query below the first sorted breakpoint interpolates to `none`. -/
lemma interp_head_below (curve : List (ℚ × ℚ)) (v : ℚ) (p0 : ℚ × ℚ)
    (rest : List (ℚ × ℚ)) (hsp : sortPoints curve = p0 :: rest) (hv : v < p0.1) :
    interpolate_threshold curve v = none := by
  show interpCore (sortPoints curve) v = none
  rw [hsp]
  simp only [interpCore]
  rw [if_pos hv]

/-- The Python per-hour curve test `threshold is not None and value >= threshold`,
as a proposition. -/
lemma thresholdMet_iff (o : Option ℚ) (m : ℚ) :
    thresholdMet o m = true ↔ ∃ t, o = some t ∧ t ≤ m := by
  cases o <;> simp [thresholdMet]

/-- Specification of `idxmaxFirst`: the returned row beats the seed and every
listed row, and is either the seed itself or sits in the list strictly after
only rows with strictly smaller values (first-occurrence tie-breaking). -/
lemma idxmaxFirst_spec (f : HourlyCount → ℚ) :
    ∀ (l : List HourlyCount) (best : HourlyCount),
      f best ≤ f (idxmaxFirst f best l) ∧
      (∀ r ∈ l, f r ≤ f (idxmaxFirst f best l)) ∧
      (idxmaxFirst f best l = best ∨
        ∃ pre post, l = pre ++ idxmaxFirst f best l :: post ∧
          f best < f (idxmaxFirst f best l) ∧
          ∀ r ∈ pre, f r < f (idxmaxFirst f best l))
  | [], best => ⟨le_refl _, by simp, Or.inl rfl⟩
  | r :: rest, best => by
      by_cases h : f best < f r
      · have hrec := idxmaxFirst_spec f rest r
        simp only [idxmaxFirst, if_pos h]
        refine ⟨le_trans (le_of_lt h) hrec.1, ?_, ?_⟩
        · intro x hx
          rcases List.mem_cons.mp hx with h1 | h2
          · rw [h1]; exact hrec.1
          · exact hrec.2.1 x h2
        · rcases hrec.2.2 with hl | ⟨pre, post, hsplit, hlt, hpre⟩
          · right
            exact ⟨[], rest, by rw [hl, List.nil_append], by rw [hl]; exact h, by simp⟩
          · right
            refine ⟨r :: pre, post, by rw [List.cons_append, ← hsplit], lt_trans h hlt, ?_⟩
            intro x hx
            rcases List.mem_cons.mp hx with h1 | h2
            · rw [h1]; exact hlt
            · exact hpre x h2
      · have h' : f r ≤ f best := not_lt.mp h
        have hrec := idxmaxFirst_spec f rest best
        simp only [idxmaxFirst, if_neg h]
        refine ⟨hrec.1, ?_, ?_⟩
        · intro x hx
          rcases List.mem_cons.mp hx with h1 | h2
          · rw [h1]; exact le_trans h' hrec.1
          · exact hrec.2.1 x h2
        · rcases hrec.2.2 with hl | ⟨pre, post, hsplit, hlt, hpre⟩
          · left; exact hl
          · right
            refine ⟨r :: pre, post, by rw [List.cons_append, ← hsplit], hlt, ?_⟩
            intro x hx
            rcases List.mem_cons.mp hx with h1 | h2
            · rw [h1]; exact lt_of_le_of_lt h' hlt
            · exact hpre x h2

/-! ### Claims C4-C7: interpolation properties -/

/-- **C4**: for every non-empty curve and every major volume at or above the
last (largest-x) breakpoint of the sorted curve, `interpolate_threshold`
returns exactly that last breakpoint's minor threshold — flat extrapolation,
independent of how far above the breakpoint the query is. -/
theorem interpolate_flat_above_last (curve : List (ℚ × ℚ)) (v : ℚ) (plast : ℚ × ℚ)
    (hlast : (sortPoints curve).getLast? = some plast) (hv : plast.1 ≤ v) :
    interpolate_threshold curve v = some plast.2 := by
  cases hsp : sortPoints curve with
  | nil => rw [hsp] at hlast; simp at hlast
  | cons p0 rest =>
    have hgl : (p0 :: rest).getLast (List.cons_ne_nil p0 rest) = plast := by
      have h2 := List.getLast?_eq_getLast_of_ne_nil (l := p0 :: rest) (List.cons_ne_nil p0 rest)
      rw [hsp, h2] at hlast
      exact (Option.some_injective _ hlast)
    have hch : List.Chain' keyLE (p0 :: rest) := by
      rw [← hsp]; exact sortPoints_chain curve
    have hhl := chainLE_head_le_getLast rest p0 hch
    rw [hgl] at hhl
    show interpCore (sortPoints curve) v = some plast.2
    rw [hsp]
    simp only [interpCore, hgl]
    rw [if_neg (not_lt.mpr (le_trans hhl hv)), if_pos hv]

/-- Witness for C4: the Warrant 3 tier-100 one-by-one curve ends at
`(1000, 100)`; far above that breakpoint the threshold is still `100`. -/
theorem interpolate_flat_above_last_witness :
    interpolate_threshold (WARRANT3_CURVES "100" (1, 1)) 5000 = some 100 :=
  interpolate_flat_above_last (WARRANT3_CURVES "100" (1, 1)) 5000 (1000, 100)
    (by decide) (by norm_num)

/-- **C5**: for every non-empty curve and every major volume strictly below
the first (smallest-x) breakpoint of the sorted curve, `interpolate_threshold`
returns `none` (NotApplicable) — not a zero threshold. -/
theorem interpolate_below_first_none (curve : List (ℚ × ℚ)) (v : ℚ) (p0 : ℚ × ℚ)
    (hhead : (sortPoints curve).head? = some p0) (hv : v < p0.1) :
    interpolate_threshold curve v = none := by
  cases hsp : sortPoints curve with
  | nil => rw [hsp] at hhead; simp at hhead
  | cons a rest =>
    rw [hsp] at hhead
    have ha : a = p0 := by simpa using hhead
    subst ha
    exact interp_head_below curve v a rest hsp hv

/-- Witness for C5: querying the same curve below its first breakpoint 400. -/
theorem interpolate_below_first_none_witness :
    interpolate_threshold (WARRANT3_CURVES "100" (1, 1)) 250 = none :=
  interpolate_below_first_none (WARRANT3_CURVES "100" (1, 1)) 250 (400, 150)
    (by decide) (by norm_num)

/-- **C6**: (1) the interpolation loop only ever selects a segment of
strictly positive width `x2 - x1` (so the slope division is never a division
by zero), on any input; and (2) for a curve with strictly increasing
major_vph, querying exactly at a breakpoint returns exactly that
breakpoint's minor threshold. -/
theorem interpolate_breakpoint_exact :
    (∀ (pts : List (ℚ × ℚ)) (v : ℚ) (p q : ℚ × ℚ),
        findSegment pts v = some (p, q) → 0 < q.1 - p.1) ∧
    (∀ (curve : List (ℚ × ℚ)) (x y : ℚ),
        List.Chain' keyLT curve → (x, y) ∈ curve →
        interpolate_threshold curve x = some y) := by
  constructor
  · intro pts v p q h
    have h3 := (findSegment_width pts v p q h).2.2
    linarith
  · intro curve x y hch hmem
    have hsorted : List.Sorted keyLE curve := by
      rw [List.chain'_iff_pairwise] at hch
      exact hch.imp fun h => le_of_lt h
    cases curve with
    | nil => simp at hmem
    | cons p0 rest =>
      show interpCore (sortPoints (p0 :: rest)) x = some y
      rw [sortPoints_eq_of_sorted hsorted]
      exact interpCore_mem rest p0 x y hch hmem

/-- Witness for C6 at an interior breakpoint of a stored curve. -/
theorem interpolate_breakpoint_exact_witness :
    interpolate_threshold (WARRANT3_CURVES "100" (1, 1)) 500 = some 135 := by
  have hc : WARRANT3_CURVES "100" (1, 1) =
      [(400, 150), (500, 135), (600, 120), (700, 105), (800, 100), (900, 100), (1000, 100)] := by
    decide
  exact interpolate_breakpoint_exact.2 (WARRANT3_CURVES "100" (1, 1)) 500 135
    (by rw [hc]; norm_num [List.chain'_cons, List.chain'_singleton, keyLT])
    (by decide)

/-- **C7**: on a curve whose minor thresholds are non-increasing along the
sorted breakpoints, `interpolate_threshold` is non-increasing in the major
volume: for `a ≤ b` both at or above the first sorted breakpoint, both
queries succeed and the threshold at `a` is at least the threshold at `b`. -/
theorem interpolate_monotone (curve : List (ℚ × ℚ)) (p0 : ℚ × ℚ)
    (rest : List (ℚ × ℚ)) (hsp : sortPoints curve = p0 :: rest)
    (hy : List.Chain' keyYGE (sortPoints curve))
    (a b : ℚ) (ha : p0.1 ≤ a) (hab : a ≤ b) :
    ∃ ta tb, interpolate_threshold curve a = some ta ∧
      interpolate_threshold curve b = some tb ∧ tb ≤ ta := by
  have hx : List.Chain' keyLE (p0 :: rest) := by
    rw [← hsp]; exact sortPoints_chain curve
  rw [hsp] at hy
  obtain ⟨ta, hta⟩ := interpCore_isSome rest p0 a hx ha
  obtain ⟨tb, htb⟩ := interpCore_isSome rest p0 b hx (le_trans ha hab)
  refine ⟨ta, tb, ?_, ?_, interpCore_mono rest p0 a b ta tb hx hy ha hab hta htb⟩
  · show interpCore (sortPoints curve) a = some ta
    rw [hsp]; exact hta
  · show interpCore (sortPoints curve) b = some tb
    rw [hsp]; exact htb

/-- Witness for C7 on a stored (non-increasing) curve with `450 ≤ 650`. -/
theorem interpolate_monotone_witness :
    ∃ ta tb, interpolate_threshold (WARRANT3_CURVES "100" (1, 1)) 450 = some ta ∧
      interpolate_threshold (WARRANT3_CURVES "100" (1, 1)) 650 = some tb ∧ tb ≤ ta := by
  have hs : sortPoints (WARRANT3_CURVES "100" (1, 1)) =
      [(400, 150), (500, 135), (600, 120), (700, 105), (800, 100), (900, 100), (1000, 100)] := by
    decide
  exact interpolate_monotone (WARRANT3_CURVES "100" (1, 1)) (400, 150)
    [(500, 135), (600, 120), (700, 105), (800, 100), (900, 100), (1000, 100)]
    hs
    (by rw [hs]; norm_num [List.chain'_cons, List.chain'_singleton, keyYGE])
    450 650 (by norm_num) (by norm_num)

/-! ### Claims C1 and C10: Warrant 1 decision logic -/

/-- When street 1 carries at least the total of street 2, it is the major
street for every row. -/
lemma resolveMajor_of_le {tdf : List HourlyCount}
    (h : street2Total tdf ≤ street1Total tdf) (row : HourlyCount) :
    resolveMajor tdf row = row.street1 :=
  if_pos h

/-- Companion of `resolveMajor_of_le` for the minor street. -/
lemma resolveMinor_of_le {tdf : List HourlyCount}
    (h : street2Total tdf ≤ street1Total tdf) (row : HourlyCount) :
    resolveMinor tdf row = row.street2 :=
  if_pos h

/-- **C1**: for every traffic series of at least 8 hourly rows, Warrant 1 is
decided first-match-wins: Condition A hours ≥ 8 gives met/"A"; else
Condition B hours ≥ 8 gives met/"B"; else both combination-tier counts ≥ 8
give met/"A+B"; otherwise not met with `hours_met = max` of the A and B
counts.  `hoursMeeting` counts hours whose major and minor volumes both
reach the pair's thresholds. -/
theorem warrant1_decision_order (tdf : List HourlyCount)
    (major_lanes minor_lanes : ℕ) (speed population : ℚ)
    (hlen : 8 ≤ tdf.length) :
    let lk := get_lane_key major_lanes minor_lanes
    let pct := get_threshold_percentage speed population false
    let pctc := get_threshold_percentage speed population true
    let hA := hoursMeeting tdf (WARRANT1_THRESHOLDS_condition_a lk pct)
    let hB := hoursMeeting tdf (WARRANT1_THRESHOLDS_condition_b lk pct)
    let hAc := hoursMeeting tdf (WARRANT1_THRESHOLDS_condition_a lk pctc)
    let hBc := hoursMeeting tdf (WARRANT1_THRESHOLDS_condition_b lk pctc)
    let r := evaluate_warrant1 (some tdf) major_lanes minor_lanes speed population
    (8 ≤ hA → r = ⟨some true, some "A", hA⟩) ∧
    (hA < 8 → 8 ≤ hB → r = ⟨some true, some "B", hB⟩) ∧
    (hA < 8 → hB < 8 → 8 ≤ hAc → 8 ≤ hBc → r = ⟨some true, some "A+B", min hAc hBc⟩) ∧
    (hA < 8 → hB < 8 → ¬(8 ≤ hAc ∧ 8 ≤ hBc) → r = ⟨some false, none, max hA hB⟩) := by
  intro lk pct pctc hA hB hAc hBc r
  have hr : r = evaluate_warrant1 (some tdf) major_lanes minor_lanes speed population := rfl
  refine ⟨fun h1 => ?_, fun h1 h2 => ?_, fun h1 h2 h3 h4 => ?_, fun h1 h2 h3 => ?_⟩ <;>
    simp only [hr, evaluate_warrant1, if_neg (not_lt.mpr hlen)]
  · rw [if_pos h1]
  · rw [if_neg (not_le.mpr h1), if_pos h2]
  · rw [if_neg (not_le.mpr h1), if_neg (not_le.mpr h2), if_pos ⟨h3, h4⟩]
  · rw [if_neg (not_le.mpr h1), if_neg (not_le.mpr h2), if_neg h3]

/-- An 8-hour series with every hour at (600, 200), spec Scenario A. -/
def scenarioA : List HourlyCount :=
  [⟨"06:00", 600, 200⟩, ⟨"07:00", 600, 200⟩, ⟨"08:00", 600, 200⟩, ⟨"09:00", 600, 200⟩,
   ⟨"10:00", 600, 200⟩, ⟨"11:00", 600, 200⟩, ⟨"12:00", 600, 200⟩, ⟨"13:00", 600, 200⟩]

/-- Witness for C1 on spec Scenario A: lane key (1,1), tier 100, all 8 hours
clear Condition A, so the verdict is met via "A". -/
theorem warrant1_decision_order_witness :
    evaluate_warrant1 (some scenarioA) 1 1 35 15000 =
      ⟨some true, some "A",
        hoursMeeting scenarioA (WARRANT1_THRESHOLDS_condition_a (get_lane_key 1 1)
          (get_threshold_percentage 35 15000 false))⟩ := by
  have hst : street2Total scenarioA ≤ street1Total scenarioA := by
    norm_num [street1Total, street2Total, scenarioA]
  simp only [scenarioA] at hst
  have ht : WARRANT1_THRESHOLDS_condition_a (get_lane_key 1 1)
      (get_threshold_percentage 35 15000 false) = (500, 150) := by decide
  have hA : hoursMeeting scenarioA (WARRANT1_THRESHOLDS_condition_a (get_lane_key 1 1)
      (get_threshold_percentage 35 15000 false)) = 8 := by
    rw [ht]
    simp only [hoursMeeting, resolveMajor_of_le hst, resolveMinor_of_le hst, scenarioA,
      List.countP_cons, List.countP_nil]
    norm_num
  exact (warrant1_decision_order scenarioA 1 1 35 15000 (by decide)).1 hA.ge

/-- **C10**: whenever Warrant 1 reports the combination condition "A+B", the
reported `hours_met` equals the minimum of the two combination-tier hour
counts. -/
theorem warrant1_combo_min (tdf : List HourlyCount)
    (major_lanes minor_lanes : ℕ) (speed population : ℚ)
    (h : (evaluate_warrant1 (some tdf) major_lanes minor_lanes speed population).condition =
      some "A+B") :
    (evaluate_warrant1 (some tdf) major_lanes minor_lanes speed population).hours_met =
      min (hoursMeeting tdf (WARRANT1_THRESHOLDS_condition_a
            (get_lane_key major_lanes minor_lanes)
            (get_threshold_percentage speed population true)))
          (hoursMeeting tdf (WARRANT1_THRESHOLDS_condition_b
            (get_lane_key major_lanes minor_lanes)
            (get_threshold_percentage speed population true))) := by
  simp only [evaluate_warrant1] at h ⊢
  by_cases h8 : tdf.length < 8
  · rw [if_pos h8] at h
    exact Option.noConfusion h
  · rw [if_neg h8] at h ⊢
    split_ifs at h ⊢
    all_goals first
      | rfl
      | exact Option.noConfusion h
      | exact absurd (Option.some.inj h) (by decide)

/-- An 8-hour series with every hour at (600, 120): the tier-100 pairs fail
but both tier-80 combination pairs pass every hour. -/
def scenarioCombo : List HourlyCount :=
  [⟨"06:00", 600, 120⟩, ⟨"07:00", 600, 120⟩, ⟨"08:00", 600, 120⟩, ⟨"09:00", 600, 120⟩,
   ⟨"10:00", 600, 120⟩, ⟨"11:00", 600, 120⟩, ⟨"12:00", 600, 120⟩, ⟨"13:00", 600, 120⟩]

/-- Witness for C10: the combination verdict reports the minimum of the two
combination-tier counts. -/
theorem warrant1_combo_min_witness :
    (evaluate_warrant1 (some scenarioCombo) 1 1 35 15000).hours_met =
      min (hoursMeeting scenarioCombo (WARRANT1_THRESHOLDS_condition_a
            (get_lane_key 1 1) (get_threshold_percentage 35 15000 true)))
          (hoursMeeting scenarioCombo (WARRANT1_THRESHOLDS_condition_b
            (get_lane_key 1 1) (get_threshold_percentage 35 15000 true))) := by
  have hst : street2Total scenarioCombo ≤ street1Total scenarioCombo := by
    norm_num [street1Total, street2Total, scenarioCombo]
  simp only [scenarioCombo] at hst
  have hta : WARRANT1_THRESHOLDS_condition_a (get_lane_key 1 1)
      (get_threshold_percentage 35 15000 false) = (500, 150) := by decide
  have htb : WARRANT1_THRESHOLDS_condition_b (get_lane_key 1 1)
      (get_threshold_percentage 35 15000 false) = (750, 75) := by decide
  have htac : WARRANT1_THRESHOLDS_condition_a (get_lane_key 1 1)
      (get_threshold_percentage 35 15000 true) = (400, 120) := by decide
  have htbc : WARRANT1_THRESHOLDS_condition_b (get_lane_key 1 1)
      (get_threshold_percentage 35 15000 true) = (600, 60) := by decide
  have cA : hoursMeeting scenarioCombo (500, 150) = 0 := by
    simp only [hoursMeeting, resolveMajor_of_le hst, resolveMinor_of_le hst, scenarioCombo,
      List.countP_cons, List.countP_nil]
    norm_num
  have cAc : hoursMeeting scenarioCombo (400, 120) = 8 := by
    simp only [hoursMeeting, resolveMajor_of_le hst, resolveMinor_of_le hst, scenarioCombo,
      List.countP_cons, List.countP_nil]
    norm_num
  have cBc : hoursMeeting scenarioCombo (600, 60) = 8 := by
    simp only [hoursMeeting, resolveMajor_of_le hst, resolveMinor_of_le hst, scenarioCombo,
      List.countP_cons, List.countP_nil]
    norm_num
  refine warrant1_combo_min scenarioCombo 1 1 35 15000 ?_
  have cB : hoursMeeting scenarioCombo (750, 75) = 0 := by
    simp only [hoursMeeting, resolveMajor_of_le hst, resolveMinor_of_le hst, scenarioCombo,
      List.countP_cons, List.countP_nil]
    norm_num
  simp only [evaluate_warrant1, hta, htb, htac, htbc, cA, cB, cAc, cBc]
  norm_num [scenarioCombo]

/-! ### Claim C2: Warrant 7 gate order -/

/-- **C2**: Warrant 7 checks its three sub-conditions in strict order with
early short-circuit (alternatives tried, then crashes ≥ 5, then volume); the
final verdict is `met = A ∧ B ∧ C`; an hour counts for the volume condition
iff the 80%-tier Condition A pair holds, or the 80%-tier Condition B pair
holds, or the minor volume reaches the Warrant 3 curve threshold at the
speed/population-selected tier; and Condition C holds iff at least 8 such
hours exist. -/
theorem warrant7_gate_order (traffic_df : Option (List HourlyCount))
    (major_lanes minor_lanes : ℕ) (speed population : ℚ)
    (correctable_crashes : ℕ) (alternatives_tried : Bool) :
    let r := evaluate_warrant7 traffic_df major_lanes minor_lanes speed population
      correctable_crashes alternatives_tried
    (∀ (tdf : List HourlyCount) (row : HourlyCount),
      w7RowMeets tdf major_lanes minor_lanes speed population row = true ↔
        (((WARRANT1_THRESHOLDS_condition_a (get_lane_key major_lanes minor_lanes) "80").1 ≤
            resolveMajor tdf row ∧
          (WARRANT1_THRESHOLDS_condition_a (get_lane_key major_lanes minor_lanes) "80").2 ≤
            resolveMinor tdf row) ∨
         ((WARRANT1_THRESHOLDS_condition_b (get_lane_key major_lanes minor_lanes) "80").1 ≤
            resolveMajor tdf row ∧
          (WARRANT1_THRESHOLDS_condition_b (get_lane_key major_lanes minor_lanes) "80").2 ≤
            resolveMinor tdf row) ∨
         (∃ t, interpolate_threshold
            (WARRANT3_CURVES (if 40 < speed ∨ population < 10000 then "70" else "100")
              (get_lane_key major_lanes minor_lanes))
            (resolveMajor tdf row) = some t ∧ t ≤ resolveMinor tdf row))) ∧
    (r.met = some (r.condition_a && r.condition_b && r.condition_c)) ∧
    (alternatives_tried = false →
      r = ⟨some false, false, false, false, correctable_crashes, 0⟩) ∧
    (alternatives_tried = true → correctable_crashes < 5 →
      r = ⟨some false, true, false, false, correctable_crashes, 0⟩) ∧
    (alternatives_tried = true → 5 ≤ correctable_crashes →
      ∀ tdf, traffic_df = some tdf → 8 ≤ tdf.length →
        r.condition_a = true ∧ r.condition_b = true ∧
        r.hours_meeting_volume =
          tdf.countP (w7RowMeets tdf major_lanes minor_lanes speed population) ∧
        (r.condition_c = true ↔
          8 ≤ tdf.countP (w7RowMeets tdf major_lanes minor_lanes speed population))) := by
  intro r
  have hr : r = evaluate_warrant7 traffic_df major_lanes minor_lanes speed population
      correctable_crashes alternatives_tried := rfl
  refine ⟨?_, ?_, ?_, ?_, ?_⟩
  · intro tdf row
    simp only [w7RowMeets, Bool.or_eq_true, decide_eq_true_eq, thresholdMet_iff]
    tauto
  · rw [hr]
    cases alternatives_tried with
    | false => rfl
    | true =>
      by_cases h5 : correctable_crashes < 5
      · simp [evaluate_warrant7, h5]
      · cases traffic_df with
        | none => simp [evaluate_warrant7, h5]
        | some tdf =>
          by_cases hlen : tdf.length < 8
          · simp [evaluate_warrant7, h5, hlen]
          · by_cases hc :
              8 ≤ tdf.countP (w7RowMeets tdf major_lanes minor_lanes speed population)
            · simp [evaluate_warrant7, h5, hlen, hc]
            · simp [evaluate_warrant7, h5, hlen, hc]
  · intro h
    subst h
    exact hr.trans rfl
  · intro h h5
    subst h
    rw [hr]
    simp [evaluate_warrant7, h5]
  · intro h h5 tdf htdf hlen
    subst h
    subst htdf
    rw [hr]
    have h5' : ¬correctable_crashes < 5 := not_lt.mpr h5
    have hlen' : ¬tdf.length < 8 := not_lt.mpr hlen
    simp only [evaluate_warrant7, Bool.not_true, Bool.false_eq_true, if_false, if_neg h5',
      if_neg hlen']
    by_cases hc : 8 ≤ tdf.countP (w7RowMeets tdf major_lanes minor_lanes speed population)
    · rw [if_pos hc]
      exact ⟨rfl, rfl, rfl, by simp [hc]⟩
    · rw [if_neg hc]
      exact ⟨rfl, rfl, rfl, by simp [hc]⟩

/-- An 8-hour series with every hour at (480, 120): each hour clears the
80%-tier Condition A pair (400, 120) for lane key (1,1). -/
def scenario7 : List HourlyCount :=
  [⟨"06:00", 480, 120⟩, ⟨"07:00", 480, 120⟩, ⟨"08:00", 480, 120⟩, ⟨"09:00", 480, 120⟩,
   ⟨"10:00", 480, 120⟩, ⟨"11:00", 480, 120⟩, ⟨"12:00", 480, 120⟩, ⟨"13:00", 480, 120⟩]

/-- Witness for C2: all gates pass and all 8 hours meet the volume test,
so the verdict is met with 8 qualifying hours. -/
theorem warrant7_gate_order_witness :
    (evaluate_warrant7 (some scenario7) 1 1 35 15000 5 true).met = some true ∧
    (evaluate_warrant7 (some scenario7) 1 1 35 15000 5 true).hours_meeting_volume = 8 := by
  obtain ⟨-, hmet, -, -, hmain⟩ := warrant7_gate_order (some scenario7) 1 1 35 15000 5 true
  obtain ⟨ha, hb, hcount, hciff⟩ := hmain rfl (by norm_num) scenario7 rfl (by decide)
  have hst : street2Total scenario7 ≤ street1Total scenario7 := by
    norm_num [street1Total, street2Total, scenario7]
  simp only [scenario7] at hst
  have hta : WARRANT1_THRESHOLDS_condition_a (get_lane_key 1 1) "80" = (400, 120) := by decide
  have hcnt : scenario7.countP (w7RowMeets scenario7 1 1 35 15000) = 8 := by
    simp only [scenario7, w7RowMeets, hta, resolveMajor_of_le hst, resolveMinor_of_le hst,
      List.countP_cons, List.countP_nil, Bool.or_eq_true, decide_eq_true_eq]
    norm_num
  constructor
  · simp [hmet, ha, hb, hciff.mpr hcnt.ge]
  · rw [hcount, hcnt]

/-! ### Claim C3: insufficient data and the tri-state verdict -/

/-- **C3 counterexample**: Warrant 7's insufficient-data branch does NOT
return the tri-state NotApplicable.  With the earlier gates passing and the
traffic series missing, `met` is the plain not-met `some false`, not `none`
as the claim demands. -/
theorem warrant7_insufficient_not_na :
    (evaluate_warrant7 none 1 1 35 15000 5 true).met = some false ∧
    (evaluate_warrant7 none 1 1 35 15000 5 true).met ≠ none := by
  constructor
  · rfl
  · intro h
    exact Option.noConfusion h

/-- **C3 amended**: Warrants 1, 2 and 3 return NotApplicable (`met = none`)
on a missing or too-short series; Warrant 4 does so only after its distance
and gap gates pass; and Warrant 7's condition-C insufficient-data branch
returns a plain not-met (`met = some false` with `condition_c = false`,
the earlier gates marked passed), never NotApplicable. -/
theorem insufficient_data_verdicts (major_lanes minor_lanes : ℕ)
    (speed population ped_peak ped_4hr gaps_per_hour dist_to_signal : ℚ)
    (correctable_crashes : ℕ) :
    ((evaluate_warrant1 none major_lanes minor_lanes speed population).met = none) ∧
    (∀ tdf : List HourlyCount, tdf.length < 8 →
      (evaluate_warrant1 (some tdf) major_lanes minor_lanes speed population).met = none) ∧
    ((evaluate_warrant2 none major_lanes minor_lanes speed population).met = none) ∧
    (∀ tdf : List HourlyCount, tdf.length < 4 →
      (evaluate_warrant2 (some tdf) major_lanes minor_lanes speed population).met = none) ∧
    ((evaluate_warrant3 none major_lanes minor_lanes speed population).met = none) ∧
    ((evaluate_warrant3 (some []) major_lanes minor_lanes speed population).met = none) ∧
    (¬dist_to_signal < 300 → gaps_per_hour < 60 →
      (evaluate_warrant4 none speed population ped_peak ped_4hr gaps_per_hour
        dist_to_signal).met = none ∧
      (evaluate_warrant4 (some []) speed population ped_peak ped_4hr gaps_per_hour
        dist_to_signal).met = none) ∧
    (5 ≤ correctable_crashes →
      ((evaluate_warrant7 none major_lanes minor_lanes speed population
          correctable_crashes true).met = some false ∧
        (evaluate_warrant7 none major_lanes minor_lanes speed population
          correctable_crashes true).condition_a = true ∧
        (evaluate_warrant7 none major_lanes minor_lanes speed population
          correctable_crashes true).condition_b = true ∧
        (evaluate_warrant7 none major_lanes minor_lanes speed population
          correctable_crashes true).condition_c = false) ∧
      ∀ tdf : List HourlyCount, tdf.length < 8 →
        (evaluate_warrant7 (some tdf) major_lanes minor_lanes speed population
          correctable_crashes true).met = some false ∧
        (evaluate_warrant7 (some tdf) major_lanes minor_lanes speed population
          correctable_crashes true).condition_c = false) := by
  refine ⟨rfl, ?_, rfl, ?_, rfl, rfl, ?_, ?_⟩
  · intro tdf h
    simp [evaluate_warrant1, h]
  · intro tdf h
    simp [evaluate_warrant2, h]
  · intro h1 h2
    constructor <;> simp [evaluate_warrant4, h1, h2]
  · intro h5
    have h5' : ¬correctable_crashes < 5 := not_lt.mpr h5
    refine ⟨⟨?_, ?_, ?_, ?_⟩, ?_⟩ <;>
      try simp [evaluate_warrant7, h5']
    intro tdf hlen
    constructor <;> simp [evaluate_warrant7, h5', hlen]

/-- Witness for the amended C3 at concrete inputs: an empty series gives
NotApplicable for Warrant 1 and a missing series gives NotApplicable for
Warrant 4 past its gates, while Warrant 7 reports plain not-met. -/
theorem insufficient_data_verdicts_witness :
    (evaluate_warrant1 (some []) 1 1 35 15000).met = none ∧
    (evaluate_warrant4 none 35 15000 0 0 30 1000).met = none ∧
    (evaluate_warrant7 (some []) 1 1 35 15000 5 true).met = some false := by
  obtain ⟨-, h1, -, -, -, -, h4, h7⟩ :=
    insufficient_data_verdicts 1 1 35 15000 0 0 30 1000 5
  exact ⟨h1 [] (by decide), (h4 (by norm_num) (by norm_num)).1,
    ((h7 (by norm_num)).2 [] (by decide)).1⟩

/-! ### Claim C8: Warrant 4 gate order, tier and criterion naming -/

/-- The source's `criterion` expression (`'Four-Hour' if four_hour_met else
'Peak Hour'` guarded by `met`) names the four-hour check whenever it passed
and the peak-hour check only when the four-hour check alone failed. -/
lemma criterion_naming (f p : Bool) :
    (if (f || p) = true then (if f = true then some "Four-Hour" else some "Peak Hour")
     else none) =
    (if f = true then some "Four-Hour" else if p = true then some "Peak Hour" else none) := by
  cases f <;> cases p <;> rfl

/-- **C8**: Warrant 4 short-circuits its hard gates in order — distance to
signal < 300 ft is not met, then adequate gaps ≥ 60 is not met, then a
missing/empty series is NotApplicable; past the gates the tier is "70" iff
speed > 35 or population < 10000, overall met is four-hour OR peak-hour,
and the criterion names the four-hour check with priority. -/
theorem warrant4_gate_order (traffic_df : Option (List HourlyCount))
    (speed population ped_peak ped_4hr gaps_per_hour dist_to_signal : ℚ) :
    let r := evaluate_warrant4 traffic_df speed population ped_peak ped_4hr
      gaps_per_hour dist_to_signal
    (dist_to_signal < 300 → r = ⟨some false, none, false, false, none⟩) ∧
    (¬dist_to_signal < 300 → 60 ≤ gaps_per_hour →
      r = ⟨some false, none, false, false, none⟩) ∧
    (¬dist_to_signal < 300 → gaps_per_hour < 60 →
      (traffic_df = none ∨ traffic_df = some []) →
      r = ⟨none, none, false, false, none⟩) ∧
    (¬dist_to_signal < 300 → gaps_per_hour < 60 →
      ∀ hd tl, traffic_df = some (hd :: tl) →
        r.pct = some (if 35 < speed ∨ population < 10000 then "70" else "100") ∧
        r.met = some (r.four_hour_met || r.peak_hour_met) ∧
        r.criterion = (if r.four_hour_met = true then some "Four-Hour"
                       else if r.peak_hour_met = true then some "Peak Hour" else none)) := by
  intro r
  have hr : r = evaluate_warrant4 traffic_df speed population ped_peak ped_4hr
      gaps_per_hour dist_to_signal := rfl
  refine ⟨?_, ?_, ?_, ?_⟩
  · intro h1
    rw [hr]
    simp [evaluate_warrant4, h1]
  · intro h1 h2
    rw [hr]
    simp [evaluate_warrant4, h1, not_lt.mpr h2]
  · intro h1 h2 h3
    rw [hr]
    rcases h3 with h3 | h3 <;> subst h3 <;> simp [evaluate_warrant4, h1, h2]
  · intro h1 h2 hd tl h3
    subst h3
    rw [hr]
    simp only [evaluate_warrant4, if_neg h1, if_neg (not_not_intro h2)]
    refine ⟨?_, ?_, ?_⟩
    · trivial
    · trivial
    · exact criterion_naming _ _

/-- Witness for C8: the distance gate fires at 200 ft regardless of the
other inputs. -/
theorem warrant4_gate_order_witness :
    evaluate_warrant4 (some []) 35 15000 0 0 30 200 =
      ⟨some false, none, false, false, none⟩ :=
  (warrant4_gate_order (some []) 35 15000 0 0 30 200).1 (by norm_num)

/-! ### Claim C9: Warrant 3 peak-hour selection and verdict -/

/-- **C9**: for every non-empty series, Warrant 3 selects as peak the first
row (in input order) attaining the maximum major+minor total, reports that
row's hour and volumes, interpolates the threshold at the peak major volume,
is met iff that threshold exists and the peak minor volume reaches it, and
when the peak major volume lies below the curve's first breakpoint the
verdict is not met with the below-curve-range message rather than a numeric
threshold miss. -/
theorem warrant3_peak_hour (hd : HourlyCount) (tl : List HourlyCount)
    (major_lanes minor_lanes : ℕ) (speed population : ℚ) :
    let tdf := hd :: tl
    let r := evaluate_warrant3 (some (hd :: tl)) major_lanes minor_lanes speed population
    let total := fun row => resolveMajor tdf row + resolveMinor tdf row
    let curve := WARRANT3_CURVES (if 40 < speed ∨ population < 10000 then "70" else "100")
      (get_lane_key major_lanes minor_lanes)
    ∃ peak pre post,
      hd :: tl = pre ++ peak :: post ∧
      (∀ row ∈ hd :: tl, total row ≤ total peak) ∧
      (∀ row ∈ pre, total row < total peak) ∧
      r.peak_hour = some peak.hour ∧
      r.peak_major = some (resolveMajor tdf peak) ∧
      r.peak_minor = some (resolveMinor tdf peak) ∧
      r.threshold = interpolate_threshold curve (resolveMajor tdf peak) ∧
      (∀ t, interpolate_threshold curve (resolveMajor tdf peak) = some t →
        r.met = some (decide (t ≤ resolveMinor tdf peak))) ∧
      (∀ p0 rest, sortPoints curve = p0 :: rest → resolveMajor tdf peak < p0.1 →
        r.met = some false ∧ r.details = W3Detail.belowCurveRange) := by
  intro tdf r total curve
  refine ⟨idxmaxFirst total hd tl, ?_⟩
  have hfields :
      r.peak_hour = some (idxmaxFirst total hd tl).hour ∧
      r.peak_major = some (resolveMajor tdf (idxmaxFirst total hd tl)) ∧
      r.peak_minor = some (resolveMinor tdf (idxmaxFirst total hd tl)) ∧
      r.threshold = interpolate_threshold curve (resolveMajor tdf (idxmaxFirst total hd tl)) :=
    ⟨rfl, rfl, rfl, rfl⟩
  have hmet : ∀ t,
      interpolate_threshold curve (resolveMajor tdf (idxmaxFirst total hd tl)) = some t →
      r.met = some (decide (t ≤ resolveMinor tdf (idxmaxFirst total hd tl))) := by
    intro t ht
    have hm : r.met = some (thresholdMet
        (interpolate_threshold curve (resolveMajor tdf (idxmaxFirst total hd tl)))
        (resolveMinor tdf (idxmaxFirst total hd tl))) := rfl
    rw [hm, ht]
    rfl
  have hbelow : ∀ p0 rest, sortPoints curve = p0 :: rest →
      resolveMajor tdf (idxmaxFirst total hd tl) < p0.1 →
      r.met = some false ∧ r.details = W3Detail.belowCurveRange := by
    intro p0 rest hsp hv
    have hnone := interp_head_below curve
      (resolveMajor tdf (idxmaxFirst total hd tl)) p0 rest hsp hv
    constructor
    · have hm : r.met = some (thresholdMet
          (interpolate_threshold curve (resolveMajor tdf (idxmaxFirst total hd tl)))
          (resolveMinor tdf (idxmaxFirst total hd tl))) := rfl
      rw [hm, hnone]
      rfl
    · have hdet : r.details =
          (if pyTruthy (interpolate_threshold curve
              (resolveMajor tdf (idxmaxFirst total hd tl))) = true then
            W3Detail.numericResult (thresholdMet
              (interpolate_threshold curve (resolveMajor tdf (idxmaxFirst total hd tl)))
              (resolveMinor tdf (idxmaxFirst total hd tl)))
          else W3Detail.belowCurveRange) := rfl
      rw [hdet, hnone]
      rfl
  obtain ⟨h1, h2, h3⟩ := idxmaxFirst_spec total tl hd
  rcases h3 with heq | ⟨pre, post, hsplit, hlt2, hpre⟩
  · refine ⟨[], tl, by rw [heq, List.nil_append], ?_, by simp,
      hfields.1, hfields.2.1, hfields.2.2.1, hfields.2.2.2, hmet, hbelow⟩
    intro row hrow
    rcases List.mem_cons.mp hrow with h | h
    · rw [h]; exact h1
    · exact h2 row h
  · refine ⟨hd :: pre, post, by rw [List.cons_append, ← hsplit], ?_, ?_,
      hfields.1, hfields.2.1, hfields.2.2.1, hfields.2.2.2, hmet, hbelow⟩
    · intro row hrow
      rcases List.mem_cons.mp hrow with h | h
      · rw [h]; exact h1
      · exact h2 row h
    · intro row hrow
      rcases List.mem_cons.mp hrow with h | h
      · rw [h]; exact hlt2
      · exact hpre row h

/-- Witness for C9, spec Scenario C: a single hour with major volume 250
below the lane-(1,1) tier-100 curve start 400 yields not met with the
below-curve-range message. -/
theorem warrant3_peak_hour_witness :
    (evaluate_warrant3 (some [⟨"07:00", 250, 40⟩]) 1 1 35 15000).met = some false ∧
    (evaluate_warrant3 (some [⟨"07:00", 250, 40⟩]) 1 1 35 15000).details =
      W3Detail.belowCurveRange := by
  obtain ⟨peak, pre, post, hsplit, -, -, -, -, -, -, -, hbelow⟩ :=
    warrant3_peak_hour ⟨"07:00", 250, 40⟩ [] 1 1 35 15000
  have hpeak : peak = ⟨"07:00", 250, 40⟩ := by
    cases pre with
    | nil =>
      simp only [List.nil_append] at hsplit
      exact (List.cons.inj hsplit).1.symm
    | cons a t => simp at hsplit
  subst hpeak
  have hst : street2Total [(⟨"07:00", 250, 40⟩ : HourlyCount)] ≤
      street1Total [(⟨"07:00", 250, 40⟩ : HourlyCount)] := by
    norm_num [street1Total, street2Total]
  have hsort : sortPoints (WARRANT3_CURVES
      (if (40 : ℚ) < 35 ∨ (15000 : ℚ) < 10000 then "70" else "100") (get_lane_key 1 1)) =
      (400, 150) :: [(500, 135), (600, 120), (700, 105), (800, 100), (900, 100), (1000, 100)] := by
    decide
  exact hbelow (400, 150)
    [(500, 135), (600, 120), (700, 105), (800, 100), (900, 100), (1000, 100)]
    hsort (by rw [resolveMajor_of_le hst]; norm_num)

end SignalWarrant
